import Mathlib

/-!
Shallow embedding of `src/index.js` of the api-gateway-openapi-validator
middleware (class `OpenApiValidator`: the constructor, `install`,
`_validateRequests`, `_validateResponses`, `_constructDefaultResponse`,
and the path/verb route resolution inside `install`).

The external collaborators required by `index.js` but not present under
`src/` (`./openApiLoader`, `./openApiRequestValidator`,
`./openApiResponseValidator`, `./errors`, `./utils`, `./constants`) are
modelled from the spec, as documented on each such definition.

JavaScript values that the middleware inspects are modelled as `Json`
trees; machine-level aspects (property iteration order of JS objects,
object aliasing) are modelled as association lists threaded functionally,
with the aliasing-sensitive points noted in the doc comments.
-/

namespace AGV

/-- JSON-like JavaScript values (the shapes `index.js` manipulates:
`null`/absent, booleans, integer numbers, strings, arrays and objects). -/
inductive Json where
  | null
  | bool (b : Bool)
  | num (n : Int)
  | str (s : String)
  | arr (xs : List Json)
  | obj (kvs : List (String × Json))

/-- JavaScript truthiness of a `Json` value (`null`, `false`, `0`, `""`
are falsy; every object and array is truthy). -/
def Json.truthy : Json → Bool
  | .null => false
  | .bool b => b
  | .num n => n != 0
  | .str s => s != ""
  | .arr _ => true
  | .obj _ => true

/-- Whether a value is structured data (a JS object or array). -/
def Json.isStructured : Json → Bool
  | .obj _ => true
  | .arr _ => true
  | _ => false

/-- JSON string escaping used by `JSON.stringify` for the characters that
can occur in this development (quote, backslash, and ASCII control
characters newline, carriage return, tab). -/
def escChar (c : Char) : List Char :=
  if c = '"' then ['\\', '"']
  else if c = '\\' then ['\\', '\\']
  else if c = '\n' then ['\\', 'n']
  else if c = '\r' then ['\\', 'r']
  else if c = '\t' then ['\\', 't']
  else [c]

/-- `JSON.stringify` rendering of a string literal. -/
def jsonQuote (s : String) : String :=
  ⟨'"' :: (s.data.foldr (fun c acc => escChar c ++ acc) ['"'])⟩

mutual

/-- `JSON.stringify` on the modelled values. -/
def Json.stringify : Json → String
  | .null => "null"
  | .bool true => "true"
  | .bool false => "false"
  | .num n => toString n
  | .str s => jsonQuote s
  | .arr xs => "[" ++ Json.stringifyArr xs ++ "]"
  | .obj kvs => "\x7b" ++ Json.stringifyObj kvs ++ "\x7d"

/-- Comma-separated serialization of array elements. -/
def Json.stringifyArr : List Json → String
  | [] => ""
  | [x] => Json.stringify x
  | x :: y :: t => Json.stringify x ++ "," ++ Json.stringifyArr (y :: t)

/-- Comma-separated serialization of object entries. -/
def Json.stringifyObj : List (String × Json) → String
  | [] => ""
  | [(k, v)] => jsonQuote k ++ ":" ++ Json.stringify v
  | (k, v) :: e :: t =>
    jsonQuote k ++ ":" ++ Json.stringify v ++ "," ++ Json.stringifyObj (e :: t)

end

/-- `JSON.stringify (\x7b message \x7d)`: the serialized body used by the
top-level catch block of `install` (line 151 of `index.js`). -/
def messageBody (m : String) : String :=
  Json.stringify (Json.obj [("message", Json.str m)])

/-- JavaScript `x || d` on an optional boolean option
(`undefined || d = d`, `false || d = d`, `true || d = true`),
as used throughout the constructor of `OpenApiValidator`. -/
def jsOrBool (v : Option Bool) (d : Bool) : Bool :=
  match v with
  | some b => if b then b else d
  | none => d

/-- JavaScript `x || d` on an optional string option
(an absent or empty string falls back to `d`). -/
def jsOrStr (v : Option String) (d : String) : String :=
  match v with
  | some s => if s = "" then d else s
  | none => d

/-- JavaScript `x || null` on an optional string option (line 27 of
`index.js`): an absent or empty string becomes `null`, i.e. `none`. -/
def jsOrNullStr (v : Option String) : Option String :=
  match v with
  | some s => if s = "" then none else some s
  | none => none

/-- JavaScript `x || d` on a `Json` value (used for `event.body || \x7b\x7d`
and friends): a falsy value falls back to `d`. -/
def jsOrJson (v : Json) (d : Json) : Json :=
  if v.truthy then v else d

/-- JavaScript `error.statusCode || 500` in the catch block of `install`:
an absent status code, and the falsy number `0`, both yield `500`. -/
def jsIntOr (v : Option Int) (d : Int) : Int :=
  match v with
  | some c => if c = 0 then d else c
  | none => d

/-- ASCII lower-casing of one character. -/
def lowerChar (c : Char) : Char :=
  if 'A' ≤ c && c ≤ 'Z' then Char.ofNat (c.toNat + 32) else c

/-- `String.prototype.toLowerCase()` on the ASCII range (HTTP verbs and
header names are ASCII). -/
def strLower (s : String) : String :=
  ⟨s.data.map lowerChar⟩

/-! ## Route resolution (lines 53-72 of `index.js`)

The fallback resolution compiles each path-template key with
`key.replace(/\x7b[^\x7d]*\x7d/g, '([a-zA-z0-9-\s\+]|%20)+') + '$'` and
tests the incoming path against the compiled pattern.  We embed exactly
that pattern language: the template is cut at every brace-delimited
segment; each such segment matches one or more tokens, where a token is a
single character of the (code's) character class or the literal sequence
`%20`; the pattern is anchored at the end of the path but not at its
start (`RegExp.test` finds a match ending at the end of the string).
Literal template characters are modelled as matching themselves (the
path templates of an OpenAPI document contain no regex
metacharacters outside the brace segments). -/

/-- The opening brace character. -/
def lbrace : Char := Char.ofNat 123

/-- The closing brace character. -/
def rbrace : Char := Char.ofNat 125

/-- The JavaScript regex `\s` class (ECMAScript WhiteSpace and
LineTerminator characters). -/
def jsWhitespace (c : Char) : Bool :=
  c = ' ' || c = '\t' || c = '\n' || c = '\r' ||
  c.val = 11 || c.val = 12 || c.val = 0xa0 || c.val = 0x1680 ||
  (0x2000 ≤ c.val && c.val ≤ 0x200a) || c.val = 0x2028 || c.val = 0x2029 ||
  c.val = 0x202f || c.val = 0x205f || c.val = 0x3000 || c.val = 0xfeff

/-- The character class `[a-zA-z0-9-\s\+]` exactly as the source writes it
(line 61 of `index.js`).  Note the `A-z` range: it spans all ASCII codes
from `A` (65) to `z` (122), so it also admits `[`, `\`, `]`, `^`, `_`
and the backtick, besides the upper- and lower-case letters. -/
def classChar (c : Char) : Bool :=
  ('a' ≤ c && c ≤ 'z') || ('A' ≤ c && c ≤ 'z') || ('0' ≤ c && c ≤ '9') ||
  c = '-' || jsWhitespace c || c = '+'

/-- The character class the spec describes for the same position:
alphanumerics, hyphen, whitespace and `+` (stated for comparison with
`classChar`; this is the class the claim asserts, not the code's). -/
def claimedClassChar (c : Char) : Bool :=
  ('a' ≤ c && c ≤ 'z') || ('A' ≤ c && c ≤ 'Z') || ('0' ≤ c && c ≤ '9') ||
  c = '-' || jsWhitespace c || c = '+'

/-- A compiled template segment: a run of literal characters, or one
brace-delimited variable segment (replaced by `([class]|%20)+`). -/
inductive Seg where
  | lit (cs : List Char)
  | var
deriving DecidableEq, Repr

/-- Skip to just after the first closing brace, as the regex
`\x7b[^\x7d]*\x7d` does; `none` when no closing brace follows (in which
case the replacement leaves the text untouched). -/
def afterCloseBrace : List Char → Option (List Char)
  | [] => none
  | c :: t => if c = rbrace then some t else afterCloseBrace t

/-- Cut a template into literal runs and variable segments, mirroring the
global replacement of `\x7b[^\x7d]*\x7d`.  The fuel argument only drives
the recursion (each step consumes at least one character and one unit of
fuel, so `parseTemplate` below supplies enough for the zero-fuel branch
to be unreachable). -/
def parseTemplateF : Nat → List Char → List Seg
  | 0, _ => []
  | _ + 1, [] => []
  | fuel + 1, c :: rest =>
    if c = lbrace then
      match afterCloseBrace rest with
      | some after => Seg.var :: parseTemplateF fuel after
      | none => [Seg.lit (c :: rest)]
    else
      match parseTemplateF fuel rest with
      | Seg.lit l :: segs => Seg.lit (c :: l) :: segs
      | segs => Seg.lit [c] :: segs

/-- Compile a template into its segments. -/
def parseTemplate (cs : List Char) : List Seg :=
  parseTemplateF cs.length cs

/-- Match a segment list against (the remainder of) a path, consuming the
whole remainder — the `$` anchor.  A variable segment consumes one or
more tokens, each token being a single `classChar` or the literal
sequence `%20`, with full backtracking (the nondeterminism of the
regex engine is reflected by the disjunctions).  Each step decreases
`segs.length + cs.length`, and the fuel by exactly one, so the
zero-fuel branch is unreachable for the fuel `segsMatch` supplies. -/
def segsMatchF : Nat → List Seg → List Char → Bool
  | 0, _, _ => false
  | _ + 1, [], cs => cs.isEmpty
  | fuel + 1, Seg.lit [] :: segs, cs => segsMatchF fuel segs cs
  | _ + 1, Seg.lit (_ :: _) :: _, [] => false
  | fuel + 1, Seg.lit (l :: ls) :: segs, c :: cs =>
    l = c && segsMatchF fuel (Seg.lit ls :: segs) cs
  | _ + 1, Seg.var :: _, [] => false
  | fuel + 1, Seg.var :: segs, '%' :: '2' :: '0' :: cs =>
    segsMatchF fuel segs cs || segsMatchF fuel (Seg.var :: segs) cs
  | fuel + 1, Seg.var :: segs, c :: cs =>
    classChar c && (segsMatchF fuel segs cs || segsMatchF fuel (Seg.var :: segs) cs)

/-- Anchored-at-the-end match of a segment list against a whole string. -/
def segsMatch (segs : List Seg) (cs : List Char) : Bool :=
  segsMatchF (segs.length + cs.length + 1) segs cs

/-- An unanchored-at-the-start match: the compiled pattern may match any
suffix of the path (this is what `RegExp(src + '$').test(path)` does). -/
def suffixMatch (segs : List Seg) : List Char → Bool
  | [] => segsMatch segs []
  | c :: cs => segsMatch segs (c :: cs) || suffixMatch segs cs

/-- Test of a path against a compiled template key, as performed inside
the fallback `find` of `install` (lines 60-63). -/
def templateTest (template path : String) : Bool :=
  suffixMatch (parseTemplate template.data) path.data

/-- Same matcher but with the class the claim describes
(`claimedClassChar` instead of `classChar`); for comparison only. -/
def claimedSegsMatchF : Nat → List Seg → List Char → Bool
  | 0, _, _ => false
  | _ + 1, [], cs => cs.isEmpty
  | fuel + 1, Seg.lit [] :: segs, cs => claimedSegsMatchF fuel segs cs
  | _ + 1, Seg.lit (_ :: _) :: _, [] => false
  | fuel + 1, Seg.lit (l :: ls) :: segs, c :: cs =>
    l = c && claimedSegsMatchF fuel (Seg.lit ls :: segs) cs
  | _ + 1, Seg.var :: _, [] => false
  | fuel + 1, Seg.var :: segs, '%' :: '2' :: '0' :: cs =>
    claimedSegsMatchF fuel segs cs || claimedSegsMatchF fuel (Seg.var :: segs) cs
  | fuel + 1, Seg.var :: segs, c :: cs =>
    claimedClassChar c && (claimedSegsMatchF fuel segs cs || claimedSegsMatchF fuel (Seg.var :: segs) cs)

/-- Suffix closure of `claimedSegsMatchF`; for comparison only. -/
def claimedSuffixMatch (segs : List Seg) : List Char → Bool
  | [] => claimedSegsMatchF (segs.length + 1) segs []
  | c :: cs =>
    claimedSegsMatchF (segs.length + (c :: cs).length + 1) segs (c :: cs) ||
      claimedSuffixMatch segs cs

/-- Template test under the claim's character class; for comparison only. -/
def claimedTemplateTest (template path : String) : Bool :=
  claimedSuffixMatch (parseTemplate template.data) path.data

/-! ## Data model of the pipeline -/

/-- The operation object `paths[template][verb]` of the spec document.
Its contents are consumed only by the external validators (modelled as
oracles below), so it is a tagged opaque record here. -/
structure OpSchema where
  tag : Nat
deriving DecidableEq, Repr

/-- The parsed OpenAPI document's `paths` table: path templates mapped to
verb-indexed operations, in declaration order (JS object property order,
which `Object.keys` reproduces). -/
abbrev SpecDoc := List (String × List (String × OpSchema))

/-- A fault as observed by the top-level catch block of `install`: a
JavaScript error with a `message` and an optional `statusCode` field
(`ValidationError` carries one, other errors do not). -/
structure Fault where
  message : String
  statusCode : Option Int
deriving DecidableEq, Repr

/-- The incoming platform event.  `body` is `Json.null` when absent;
`pathParameters`, `queryStringParameters` and `headers` may be `null`
(`none`).  `queryStringParams` is the extra property that
`Object.assign(this.event, filteredRequest)` creates (note the key
`queryStringParams` at line 187 of `index.js`, which is distinct from
`queryStringParameters`); platform events start with it absent.
`claims` models `event.requestContext.authorizer.claims`, assumed present
as an object (its absence would itself fault when the role branch
eagerly evaluates the lodash-`get` default argument). -/
structure Event where
  body : Json
  httpMethod : String
  path : String
  pathParameters : Option (List (String × String))
  queryStringParameters : Option (List (String × String))
  queryStringParams : Option (List (String × String))
  headers : Option (List (String × String))
  claims : List (String × String)

/-- A handler/transformer result object as inspected by
`response.hasOwnProperty('body') / ('statusCode')` (line 114): each of
the two envelope fields is either present or absent. -/
structure JsResp where
  body : Option Json
  statusCode : Option Int

/-- The final envelope delivered to the caller: exactly `body` and
`statusCode`. -/
structure Envelope where
  body : Json
  statusCode : Int

/-- The long-lived fields of an `OpenApiValidator` instance that
`install`'s arrow function mutates per invocation: `this.config`
(initially the empty object, modelled `none`) and `this.event`
(initially undefined, modelled `none`). -/
structure Inst where
  config : Option OpSchema
  event : Option Event

/-- The sanitized composite request returned by the external request
validator: `body`, `query`, lower-cased `headers`, `params`. -/
structure SanReq where
  body : Json
  query : List (String × String)
  headers : List (String × String)
  params : List (String × String)

/-- The wrapped business handler: receives the (sanitized, transformed)
event and either faults or returns the `[payload, statusCode, message?]`
triple of line 98 (`message` may be absent, defaulting to `''`).  The
`context`/`callback` arguments are irrelevant to the modelled behavior
and omitted; the direct-return invocation convention is modelled. -/
def Handler := Event → Except Fault (Json × Int × Option String)

/-- Modelled from the spec: the collaborators missing from `src/`.

* `tryParse` models `utils.isJson` combined with `JSON.parse` on strings
  (`./utils` is not under `src/`): per the spec, a body is "lazily
  parsed from a serialized form into structured form only when it is
  detected to be in that serialized form", so `tryParse s = some j`
  exactly when the string `s` is detected as such a serialization.
* `reqValidate` models `openApiRequestValidator.validate` (not under
  `src/`): it receives the spec document, the `removeAdditional` flag,
  the resolved operation, the path, and the composite
  body/query/headers/params payload (headers already lower-cased, as
  the spec prescribes), and returns the sanitized payload or the
  message of a `RequestValidationError`.
* `respValidate` models `openApiResponseValidator.validate` (not under
  `src/`): it receives the spec document, the `removeAdditional` flag,
  the operation config (the initial empty object is `none`), the path,
  the resolved role, the response payload and status code, and returns
  the filtered payload or a fault. -/
structure Oracles where
  tryParse : String → Option Json
  reqValidate : SpecDoc → Bool → Option OpSchema → String →
    Json → List (String × String) → List (String × String) →
    List (String × String) → Except String SanReq
  respValidate : SpecDoc → Bool → Option OpSchema → String →
    Option String → Json → Int → Except Fault Json

/-- The constructed middleware configuration: the fields the constructor
(lines 15-31 of `index.js`) stores from `params`. -/
structure Config where
  apiSpec : SpecDoc
  contentType : String
  validateSpec : Bool
  validateRequests : Bool
  validateResponses : Bool
  requestBodyTransformer : Option (Json → Json)
  requestPathTransformer : Option (List (String × String) → List (String × String))
  requestQueryTransformer : Option (List (String × String) → List (String × String))
  responseSuccessTransformer : Option (Json → Int → JsResp)
  responseErrorTransformer : Option (Json → Int → String → JsResp)
  removeAdditionalRequestProps : Bool
  removeAdditionalResponseProps : Bool
  roleAuthorizerKey : Option String
  filterByRole : Bool
  defaultRoleName : String

/-- The recognized constructor options (`params`), with `none` standing
for an absent (undefined) option.  `AJVoptions` is a pass-through for
the external validation engine and is not modelled; `lambdaBody` is the
separate constructor argument modelled as `Handler`. -/
structure Params where
  apiSpec : SpecDoc
  contentType : Option String
  validateSpec : Option Bool
  validateRequests : Option Bool
  validateResponses : Option Bool
  requestBodyTransformer : Option (Json → Json)
  requestPathTransformer : Option (List (String × String) → List (String × String))
  requestQueryTransformer : Option (List (String × String) → List (String × String))
  responseSuccessTransformer : Option (Json → Int → JsResp)
  responseErrorTransformer : Option (Json → Int → String → JsResp)
  removeAdditionalRequestProps : Option Bool
  removeAdditionalResponseProps : Option Bool
  roleAuthorizerKey : Option String
  filterByRole : Option Bool
  defaultRoleName : Option String

/-- `application/json`, the default content type.  Modelled from the
spec: `./constants` (`TYPE_JSON`) is not under `src/`; the spec states
the `contentType` default is `application/json`. -/
def TYPE_JSON : String := "application/json"

/-- The `OpenApiValidator` constructor (lines 11-33 of `index.js`).  The
`apiSpec` presence/validity guard of line 12 always passes here because
the model types `apiSpec` as an already-parsed document (a JS object,
for which `isJson` holds). -/
def mkConfig (p : Params) : Config where
  apiSpec := p.apiSpec
  contentType := jsOrStr p.contentType TYPE_JSON
  validateSpec := jsOrBool p.validateSpec true
  validateRequests := jsOrBool p.validateRequests false
  validateResponses := jsOrBool p.validateResponses false
  requestBodyTransformer := p.requestBodyTransformer
  requestPathTransformer := p.requestPathTransformer
  requestQueryTransformer := p.requestQueryTransformer
  responseSuccessTransformer := p.responseSuccessTransformer
  responseErrorTransformer := p.responseErrorTransformer
  removeAdditionalRequestProps := jsOrBool p.removeAdditionalRequestProps false
  removeAdditionalResponseProps := jsOrBool p.removeAdditionalResponseProps false
  roleAuthorizerKey := jsOrNullStr p.roleAuthorizerKey
  filterByRole := jsOrBool p.filterByRole false
  defaultRoleName := jsOrStr p.defaultRoleName "default"

/-! ## The pipeline stages of `install` -/

/-- The message of the `ValidationError` thrown on resolution failure
(line 68 of `index.js`). -/
def pathNotFoundMsg (path verb : String) : String :=
  "The path " ++ path ++ " could not be found with http method " ++
    verb ++ " in the API spec"

/-- The predicate of the fallback `find` over the path-template keys
(lines 60-63): the compiled pattern matches the path AND the template
declares the (lower-cased) verb. -/
def fallbackPred (path verb : String) (kv : String × List (String × OpSchema)) : Bool :=
  templateTest kv.1 path && (List.lookup verb kv.2).isSome

/-- The fallback resolution (lines 58-66): scan the template keys in
declaration order, select the first satisfying `fallbackPred`, and take
its operation for the verb. -/
def fallbackResolve (spec : SpecDoc) (path verb : String) : Option OpSchema :=
  match List.find? (fallbackPred path verb) spec with
  | some kv => List.lookup verb kv.2
  | none => none

/-- Route resolution (lines 54-66): exact key lookup of the path and the
verb first; on a miss of either, the fallback scan. -/
def resolveRoute (spec : SpecDoc) (path verb : String) : Option OpSchema :=
  match List.lookup path spec with
  | some ops =>
    match List.lookup verb ops with
    | some op => some op
    | none => fallbackResolve spec path verb
  | none => fallbackResolve spec path verb

/-- JS object property write: replace the value at an existing key in
place, or append a new entry. -/
def hset (m : List (String × String)) (k v : String) : List (String × String) :=
  match m with
  | [] => [(k, v)]
  | (k0, v0) :: t => if k0 = k then (k, v) :: t else (k0, v0) :: hset t k v

/-- Keep only the last entry for each key (later writes win), preserving
the order of those last writes. -/
def dedupKeepLast : List (String × String) → List (String × String)
  | [] => []
  | (k, v) :: t =>
    if (t.map Prod.fst).contains k then dedupKeepLast t
    else (k, v) :: dedupKeepLast t

/-- The header table the validator sees.  Lines 177-179 of `index.js`
write `request.headers[key.toLowerCase()] = event.headers[key]` for
every original header key, in property order, so at each lower-cased
name the validator observes the value of the last original key lowering
to it; the spec prescribes that validation reads headers by these
lower-cased names, which this table captures. -/
def loweredHeaders (hs : List (String × String)) : List (String × String) :=
  dedupKeepLast (hs.map (fun kv => (strLower kv.1, kv.2)))

/-- Lines 191-193 of `index.js`: starting from the sanitized
(lower-cased) header table, for each original header key whose
lower-cased entry survived validation with a truthy value, re-add the
entry under the original casing.  (The JS loop reads each value at the
lower-cased key and writes it back at the original key, so reading from
the immutable sanitized table is faithful: every write stores exactly
the value readable at the corresponding lower-cased key.) -/
def restoreStep (san acc : List (String × String)) (kv : String × String) :
    List (String × String) :=
  match List.lookup (strLower kv.1) san with
  | some v => if v ≠ "" then hset acc kv.1 v else acc
  | none => acc

/-- The whole restore loop of lines 191-193, starting from the sanitized
table. -/
def restoreHeaders (hs san : List (String × String)) : List (String × String) :=
  hs.foldl (restoreStep san) san

/-- Lines 38-40 of `index.js`: parse `event.body` when it is detected to
be a serialized structured value (`tryParse`, the spec-modelled
`isJson`/`JSON.parse` combination, succeeds on it). -/
def parseEventBody (orc : Oracles) (ev : Event) : Event :=
  match ev.body with
  | .str s =>
    match orc.tryParse s with
    | some j => { ev with body := j }
    | none => ev
  | _ => ev

/-- `_validateRequests` (lines 164-197) combined with the
`Object.assign(this.event, filteredRequest)` of line 79: build the
composite request (`event.body || \x7b\x7d` etc.), run the external
validator on it with headers lower-cased, and on success replace the
event's `body`, `headers` (with original casing restored) and
`pathParameters`, and create the `queryStringParams` property — note
that `queryStringParameters` itself is left unchanged, since the
filtered object uses the key `queryStringParams` (line 187).  The
`if (schema)` guard of line 165 is always true from `install`, because
`this.config` is always an object (initially `\x7b\x7d`), and every JS
object is truthy. -/
def applyRequestValidation (cfg : Config) (orc : Oracles) (c1 : Option OpSchema)
    (ev : Event) : Except String Event :=
  let hs := ev.headers.getD []
  match orc.reqValidate cfg.apiSpec cfg.removeAdditionalRequestProps c1 ev.path
      (jsOrJson ev.body (Json.obj [])) (ev.queryStringParameters.getD [])
      (loweredHeaders hs) (ev.pathParameters.getD []) with
  | .error m => .error m
  | .ok san =>
    .ok { ev with
      body := san.body
      queryStringParams := some san.query
      headers := some (restoreHeaders hs san.headers)
      pathParameters := some san.params }

/-- The request transforms (lines 82-93).  Each transformer receives the
value destructured from `this.event` at lines 44-50 — i.e. the
pre-validation (but post-body-parse) `body`, `pathParameters` and
`queryStringParameters` — and its result overwrites the corresponding
event field. -/
def applyRequestTransforms (cfg : Config) (body0 : Json)
    (pp0 q0 : Option (List (String × String))) (ev : Event) : Event :=
  let ev1 := match cfg.requestBodyTransformer with
    | some f => { ev with body := f (jsOrJson body0 (Json.obj [])) }
    | none => ev
  let ev2 := match cfg.requestPathTransformer with
    | some f => { ev1 with pathParameters := some (f (pp0.getD [])) }
    | none => ev1
  match cfg.requestQueryTransformer with
  | some f => { ev2 with queryStringParameters := some (f (q0.getD [])) }
  | none => ev2

/-- `_constructDefaultResponse` (lines 210-216): serialize the payload
when it is structured, else pass it through, and pair it with the
status code.  (The structured-value test models `utils.isJson`, which is
not under `src/`, by the spec's §4.6: "serialize(payload) if structured
else payload".) -/
def constructDefaultResponse (resp : Json) (sc : Int) : JsResp :=
  ⟨some (if resp.isStructured then Json.str (Json.stringify resp) else resp),
    some sc⟩

/-- Lines 100-111: status below 300 runs the success transformer or,
absent one, the default envelope construction; otherwise the error
transformer runs or, absent one, a `ValidationError` carrying the
handler's message and status code is thrown. -/
def responseStage (cfg : Config) (resp : Json) (sc : Int) (msg : String) :
    Except Fault JsResp :=
  if sc < 300 then
    match cfg.responseSuccessTransformer with
    | some f => .ok (f resp sc)
    | none => .ok (constructDefaultResponse resp sc)
  else
    match cfg.responseErrorTransformer with
    | some f => .ok (f resp sc msg)
    | none => .error ⟨msg, some sc⟩

/-- The fault raised by the envelope-shape check (lines 114-116).
Modelled from the spec for the missing `./errors`: an
`EnvelopeContractError` carrying no `statusCode` of its own, so the
boundary turns it into a 500.  (The source writes
`throw ValidationError('Response must contain a body and statusCode')`
without `new` and without a status argument, so whatever `./errors`
exports, the resulting fault carries no status code.) -/
def envContractFault : Fault :=
  ⟨"Response must contain a body and statusCode", none⟩

/-- Lines 120-127: detect whether the checked response body is a
serialized structured value; if so validate its parsed form and remember
to re-serialize (`converted`). -/
def convertBody (orc : Oracles) (b : Json) : Json × Bool :=
  match b with
  | .str s =>
    match orc.tryParse s with
    | some j => (j, true)
    | none => (.str s, false)
  | v => (v, false)

/-- Line 134: `get(event, 'requestContext.authorizer.claims.' + key,
event.requestContext.authorizer.claims[defaultRoleName])` — the claim at
the configured key if defined, else the value of the claim whose NAME is
the default role name (not the default role name itself). -/
def resolveRole (claims : List (String × String)) (key defaultName : String) :
    Option String :=
  match List.lookup key claims with
  | some v => some v
  | none => List.lookup defaultName claims

/-- The role resolution the claim and the code's own comment describe:
fall back to the default role name itself when the claim is absent
(stated for comparison with `resolveRole`). -/
def resolveRoleClaimed (claims : List (String × String)) (key defaultName : String) :
    Option String :=
  match List.lookup key claims with
  | some v => some v
  | none => some defaultName

/-- Lines 129-141: when response validation or role filtering is on,
resolve the role (only when `filterByRole` is set and a role key is
configured), run the external response validator, and substitute the
filtered body (re-serialized when the original was serialized);
otherwise return the checked body unchanged.  The validator receives
`handlerSc`, the `statusCode` destructured from the handler outcome at
line 98 (never reassigned, so lines 135/137 still pass it even when a
transformer altered the response's status), while the returned envelope
keeps the response's own status `s`. -/
def filterStage (cfg : Config) (orc : Oracles) (c1 : Option OpSchema) (ev : Event)
    (b0 rv : Json) (converted : Bool) (handlerSc s : Int) : Except Fault Envelope :=
  if cfg.validateResponses || cfg.filterByRole then
    let role : Option String :=
      if cfg.filterByRole then
        match cfg.roleAuthorizerKey with
        | some k => resolveRole ev.claims k cfg.defaultRoleName
        | none => none
      else none
    match orc.respValidate cfg.apiSpec cfg.removeAdditionalResponseProps c1
        ev.path role rv handlerSc with
    | .error e => .error e
    | .ok filtered =>
      .ok ⟨if converted then Json.str (Json.stringify filtered) else filtered, s⟩
  else .ok ⟨b0, s⟩

/-- The post-handler half of the `try` block (lines 98-147): destructure
the handler outcome (`message` defaults to `''`), run the response
stage, check the envelope shape, convert the body, and filter. -/
def postHandler (cfg : Config) (orc : Oracles) (c1 : Option OpSchema) (ev : Event)
    (out : Except Fault (Json × Int × Option String)) : Except Fault Envelope :=
  match out with
  | .error e => .error e
  | .ok (resp0, sc, msg?) =>
    match responseStage cfg resp0 sc (msg?.getD "") with
    | .error e => .error e
    | .ok r1 =>
      match r1.body, r1.statusCode with
      | some b0, some s =>
        let (rv, converted) := convertBody orc b0
        filterStage cfg orc c1 ev b0 rv converted sc s
      | some _, none => .error envContractFault
      | none, _ => .error envContractFault

/-- The request-side steps shared by both branches of the resolution
`if` (validation when enabled, then the request transforms), producing
the event handed to the handler together with the operation config, and
the instance fields as they stand at that point.  (JS-level caveat not
tracked by the pure model: `request.headers` aliases `event.headers`, so
in the source a FAILED validation can still leave lower-cased duplicate
keys on the event object; since the handler is never invoked on that
path, no observable behavior differs.) -/
def afterResolve (cfg : Config) (orc : Oracles) (c1 : Option OpSchema) (ev1 : Event)
    (body0 : Json) (pp0 q0 : Option (List (String × String))) :
    Except Fault (Event × Option OpSchema) × Inst :=
  if cfg.validateRequests then
    match applyRequestValidation cfg orc c1 ev1 with
    | .error m => (.error ⟨m, some 400⟩, ⟨c1, some ev1⟩)
    | .ok ev2 =>
      let ev3 := applyRequestTransforms cfg body0 pp0 q0 ev2
      (.ok (ev3, c1), ⟨c1, some ev3⟩)
  else
    let ev3 := applyRequestTransforms cfg body0 pp0 q0 ev1
    (.ok (ev3, c1), ⟨c1, some ev3⟩)

/-- The pre-handler half of the `try` block (lines 38-93): parse the
body, store the event on the instance (line 41), destructure the
pre-validation fields (lines 44-50), resolve the route when a validation
flag is on (lines 53-72, leaving `this.config` untouched otherwise),
validate and transform the request.  The `RequestValidationError` of the
external validator surfaces as a 400-class fault (spec §7).  The
returned `Inst` is the state of the instance fields at the moment the
half completes or faults. -/
def preHandler (cfg : Config) (orc : Oracles) (inst0 : Inst) (event0 : Event) :
    Except Fault (Event × Option OpSchema) × Inst :=
  let ev1 := parseEventBody orc event0
  let body0 := ev1.body
  let pp0 := ev1.pathParameters
  let q0 := ev1.queryStringParameters
  let verb := strLower ev1.httpMethod
  if cfg.validateRequests || cfg.validateResponses then
    match resolveRoute cfg.apiSpec ev1.path verb with
    | none => (.error ⟨pathNotFoundMsg ev1.path verb, some 400⟩, ⟨inst0.config, some ev1⟩)
    | some op => afterResolve cfg orc (some op) ev1 body0 pp0 q0
  else
    afterResolve cfg orc inst0.config ev1 body0 pp0 q0

/-- The whole `try` block: the result before the catch, the instance
fields as left behind, and whether the wrapped handler was invoked. -/
structure TryOut where
  result : Except Fault Envelope
  inst : Inst
  invoked : Bool

/-- Run the `try` block of `install`'s arrow function. -/
def runTry (cfg : Config) (orc : Oracles) (handler : Handler) (inst0 : Inst)
    (event0 : Event) : TryOut :=
  match preHandler cfg orc inst0 event0 with
  | (.error e, i) => ⟨.error e, i, false⟩
  | (.ok (ev, c1), i) => ⟨postHandler cfg orc c1 ev (handler ev), i, true⟩

/-- The catch block (lines 148-159): serialize the fault message and use
the fault's status code, defaulting to 500 (JS `||`, so a literal `0`
status would also default). -/
def catchEnvelope (e : Fault) : Envelope :=
  ⟨Json.str (messageBody e.message), jsIntOr e.statusCode 500⟩

/-- The installed middleware, one full invocation (direct-return
convention): the `try` block, with any fault converted by the catch
block.  Returns the envelope, the instance fields after the invocation,
and whether the handler was invoked. -/
def installRun (cfg : Config) (orc : Oracles) (handler : Handler) (inst0 : Inst)
    (event0 : Event) : Envelope × Inst × Bool :=
  match runTry cfg orc handler inst0 event0 with
  | ⟨.ok env, i, v⟩ => (env, i, v)
  | ⟨.error e, i, v⟩ => (catchEnvelope e, i, v)

/-! ## Concrete fixtures (spec documents, oracles, configurations,
handlers and events used to evaluate the model on closed inputs) -/

/-- A sample operation object. -/
def op1 : OpSchema := ⟨1⟩

/-- A second sample operation object. -/
def op2 : OpSchema := ⟨2⟩

/-- A one-route spec document: `POST /pet`. -/
def specPet : SpecDoc := [("/pet", [("post", op1)])]

/-- A pass-through oracle bundle: nothing is detected as serialized, the
request validator accepts and returns the composite payload unchanged,
and the response validator returns the payload unchanged. -/
def orc0 : Oracles where
  tryParse := fun _ => none
  reqValidate := fun _ _ _ _ b q hs p => .ok ⟨b, q, hs, p⟩
  respValidate := fun _ _ _ _ _ j _ => .ok j

/-- An oracle bundle whose request validator rejects every request. -/
def orcRej : Oracles where
  tryParse := fun _ => none
  reqValidate := fun _ _ _ _ _ _ _ _ => .error "request invalid"
  respValidate := fun _ _ _ _ _ j _ => .ok j

/-- A configuration with every flag off and no transformers. -/
def cfg0 : Config where
  apiSpec := specPet
  contentType := TYPE_JSON
  validateSpec := true
  validateRequests := false
  validateResponses := false
  requestBodyTransformer := none
  requestPathTransformer := none
  requestQueryTransformer := none
  responseSuccessTransformer := none
  responseErrorTransformer := none
  removeAdditionalRequestProps := false
  removeAdditionalResponseProps := false
  roleAuthorizerKey := none
  filterByRole := false
  defaultRoleName := "default"

/-- `cfg0` with request validation enabled. -/
def cfgReq : Config := { cfg0 with validateRequests := true }

/-- `cfg0` with response validation enabled. -/
def cfgResp : Config := { cfg0 with validateResponses := true }

/-- A spec document with two templates both matching `/p/z`, only the
second of which declares `get`. -/
def specOverlap : SpecDoc :=
  [("/p/\x7ba\x7d", [("post", op1)]), ("/p/\x7bb\x7d", [("get", op2)])]

/-- `cfg0` with a success transformer that echoes the payload. -/
def cfgSucc : Config :=
  { cfg0 with responseSuccessTransformer := some (fun r s => ⟨some r, some s⟩) }

/-- `cfg0` with an error transformer that echoes payload and message. -/
def cfgErr : Config :=
  { cfg0 with
    responseErrorTransformer := some (fun r s m => ⟨some (Json.arr [r, Json.str m]), some s⟩) }

/-- `cfg0` with a success transformer that forgets the `body` field. -/
def cfgNoBody : Config :=
  { cfg0 with responseSuccessTransformer := some (fun _ s => ⟨none, some s⟩) }

/-- A handler that succeeds with a structured payload and status 200. -/
def hOk : Handler := fun _ => .ok (Json.obj [("id", Json.num 1)], 200, none)

/-- A handler that throws a fault whose `statusCode` field holds the
falsy number `0`. -/
def hZero : Handler := fun _ => .error ⟨"boom", some 0⟩

/-- A fresh instance: `this.config = \x7b\x7d`, `this.event` undefined. -/
def instFresh : Inst := ⟨none, none⟩

/-- A `POST /pet` platform event. -/
def evPet : Event where
  body := Json.null
  httpMethod := "POST"
  path := "/pet"
  pathParameters := none
  queryStringParameters := none
  queryStringParams := none
  headers := none
  claims := []

/-- A `GET /nope` platform event whose path is not in `specPet`. -/
def evMiss : Event where
  body := Json.null
  httpMethod := "GET"
  path := "/nope"
  pathParameters := none
  queryStringParameters := none
  queryStringParams := none
  headers := none
  claims := []

/-! ## Helper lemmas -/

theorem afterCloseBrace_lt : ∀ (cs rest : List Char),
    afterCloseBrace cs = some rest → rest.length < cs.length := by
  intro cs
  induction cs with
  | nil => intro rest h; simp [afterCloseBrace] at h
  | cons c t ih =>
    intro rest h
    simp only [afterCloseBrace] at h
    by_cases hc : c = rbrace
    · rw [if_pos hc] at h
      cases h
      simp
    · rw [if_neg hc] at h
      exact Nat.lt_trans (ih rest h) (Nat.lt_succ_self _)

/-- `parseTemplateF` is fuel-irrelevant above the length of its input, so
the fuel `parseTemplate` supplies is adequate and the zero-fuel branch
is unreachable. -/
theorem parseTemplateF_fuel (f1 : Nat) (cs : List Char) :
    ∀ f2, cs.length ≤ f1 → cs.length ≤ f2 →
      parseTemplateF f1 cs = parseTemplateF f2 cs := by
  induction f1, cs using parseTemplateF.induct with
  | case1 cs =>
    intro f2 h1 h2
    have : cs = [] := List.length_eq_zero.mp (Nat.le_zero.mp h1)
    subst this
    cases f2 <;> rfl
  | case2 n =>
    intro f2 h1 h2
    cases f2 <;> rfl
  | case3 fuel rest after heq ih =>
    intro f2 h1 h2
    cases f2 with
    | zero => simp at h2
    | succ g =>
      rw [parseTemplateF.eq_3, parseTemplateF.eq_3, if_pos rfl, if_pos rfl, heq]
      show Seg.var :: parseTemplateF fuel after = Seg.var :: parseTemplateF g after
      have hlt := afterCloseBrace_lt rest after heq
      simp only [List.length_cons] at h1 h2
      congr 1
      exact ih g (by omega) (by omega)
  | case4 fuel rest heq =>
    intro f2 h1 h2
    cases f2 with
    | zero => simp at h2
    | succ g =>
      rw [parseTemplateF.eq_3, parseTemplateF.eq_3, if_pos rfl, if_pos rfl, heq]
  | case5 fuel c rest hc l segs hshape ih =>
    intro f2 h1 h2
    cases f2 with
    | zero => simp at h2
    | succ g =>
      rw [parseTemplateF.eq_3, parseTemplateF.eq_3, if_neg hc, if_neg hc]
      simp only [List.length_cons] at h1 h2
      rw [ih g (by omega) (by omega)]
  | case6 fuel c rest hc hshape ih =>
    intro f2 h1 h2
    cases f2 with
    | zero => simp at h2
    | succ g =>
      rw [parseTemplateF.eq_3, parseTemplateF.eq_3, if_neg hc, if_neg hc]
      simp only [List.length_cons] at h1 h2
      rw [ih g (by omega) (by omega)]

/-- Fuel adequacy for `parseTemplate`. -/
theorem parseTemplate_fuel_adequate (f : Nat) (cs : List Char) (h : cs.length ≤ f) :
    parseTemplateF f cs = parseTemplate cs :=
  parseTemplateF_fuel f cs cs.length h (Nat.le_refl _)

/-- `segsMatchF` is fuel-irrelevant above `segs.length + cs.length`, so
the fuel `segsMatch` supplies is adequate and the zero-fuel branch is
unreachable. -/
theorem segsMatchF_fuel (f1 : Nat) (segs : List Seg) (cs : List Char) :
    ∀ f2, segs.length + cs.length < f1 → segs.length + cs.length < f2 →
      segsMatchF f1 segs cs = segsMatchF f2 segs cs := by
  induction f1, segs, cs using segsMatchF.induct with
  | case1 =>
    intro f2 h1 h2
    exact absurd h1 (Nat.not_lt_zero _)
  | case2 f cs =>
    intro f2 h1 h2
    cases f2 with
    | zero => exact absurd h2 (Nat.not_lt_zero _)
    | succ g => rfl
  | case3 f segs cs ih =>
    intro f2 h1 h2
    cases f2 with
    | zero => exact absurd h2 (Nat.not_lt_zero _)
    | succ g =>
      simp only [segsMatchF]
      apply ih
      · simp [List.length_cons] at h1
        omega
      · simp [List.length_cons] at h2
        omega
  | case4 f l ls segs =>
    intro f2 h1 h2
    cases f2 with
    | zero => exact absurd h2 (Nat.not_lt_zero _)
    | succ g => rfl
  | case5 f l ls segs c cs ih =>
    intro f2 h1 h2
    cases f2 with
    | zero => exact absurd h2 (Nat.not_lt_zero _)
    | succ g =>
      simp only [segsMatchF]
      congr 1
      apply ih
      · simp [List.length_cons] at h1 ⊢
        omega
      · simp [List.length_cons] at h2 ⊢
        omega
  | case6 f segs =>
    intro f2 h1 h2
    cases f2 with
    | zero => exact absurd h2 (Nat.not_lt_zero _)
    | succ g => rfl
  | case7 f segs cs ih1 ih2 =>
    intro f2 h1 h2
    cases f2 with
    | zero => exact absurd h2 (Nat.not_lt_zero _)
    | succ g =>
      simp only [segsMatchF]
      congr 1
      · apply ih1 <;> (simp [List.length_cons] at h1 h2 ⊢; omega)
      · apply ih2 <;> (simp [List.length_cons] at h1 h2 ⊢; omega)
  | case8 f segs c cs hne ih1 ih2 =>
    intro f2 h1 h2
    cases f2 with
    | zero => exact absurd h2 (Nat.not_lt_zero _)
    | succ g =>
      rw [segsMatchF.eq_8 f segs c cs hne, segsMatchF.eq_8 g segs c cs hne]
      congr 1
      congr 1
      · apply ih1 <;> (simp [List.length_cons] at h1 h2 ⊢; omega)
      · apply ih2 <;> (simp [List.length_cons] at h1 h2 ⊢; omega)

/-- Fuel adequacy for `segsMatch`. -/
theorem segsMatch_fuel_adequate (f : Nat) (segs : List Seg) (cs : List Char)
    (h : segs.length + cs.length < f) :
    segsMatchF f segs cs = segsMatch segs cs :=
  segsMatchF_fuel f segs cs (segs.length + cs.length + 1) h (Nat.lt_succ_self _)

theorem parseEventBody_path (orc : Oracles) (ev : Event) :
    (parseEventBody orc ev).path = ev.path := by
  unfold parseEventBody
  split
  · split <;> rfl
  · rfl

theorem parseEventBody_httpMethod (orc : Oracles) (ev : Event) :
    (parseEventBody orc ev).httpMethod = ev.httpMethod := by
  unfold parseEventBody
  split
  · split <;> rfl
  · rfl

theorem find_first_split {α : Type} (p : α → Bool) :
    ∀ (l : List α) (a : α), l.find? p = some a →
      p a = true ∧ ∃ pre post, l = pre ++ a :: post ∧ ∀ x ∈ pre, p x = false := by
  intro l
  induction l with
  | nil => intro a h; simp at h
  | cons x t ih =>
    intro a h
    cases hp : p x with
    | true =>
      rw [List.find?_cons_of_pos _ hp] at h
      cases h
      exact ⟨hp, [], t, rfl, by simp⟩
    | false =>
      rw [List.find?_cons_of_neg _ (by simp [hp])] at h
      obtain ⟨hpa, pre, post, rfl, hpre⟩ := ih a h
      refine ⟨hpa, x :: pre, post, rfl, ?_⟩
      intro y hy
      rcases List.mem_cons.mp hy with rfl | hy
      · exact hp
      · exact hpre y hy

theorem lookup_hset_self (m : List (String × String)) (k v : String) :
    List.lookup k (hset m k v) = some v := by
  induction m with
  | nil => simp [hset]
  | cons kv t ih =>
    obtain ⟨k0, v0⟩ := kv
    by_cases h : k0 = k
    · simp [hset, h]
    · simp [hset, h, List.lookup_cons, beq_false_of_ne (Ne.symm h), ih]

theorem lookup_hset_ne (m : List (String × String)) (k v k' : String) (h : k' ≠ k) :
    List.lookup k' (hset m k v) = List.lookup k' m := by
  induction m with
  | nil => simp [hset, List.lookup_cons, beq_false_of_ne h]
  | cons kv t ih =>
    obtain ⟨k0, v0⟩ := kv
    by_cases h0 : k0 = k
    · simp [hset, h0, List.lookup_cons, beq_false_of_ne h]
    · simp [hset, h0, List.lookup_cons, ih]

theorem restore_foldl_not_mem (san : List (String × String)) :
    ∀ (hs : List (String × String)) (acc : List (String × String)) (k : String),
      k ∉ hs.map Prod.fst →
      List.lookup k (hs.foldl (restoreStep san) acc) = List.lookup k acc := by
  intro hs
  induction hs with
  | nil => intro acc k _; rfl
  | cons kv t ih =>
    intro acc k hk
    obtain ⟨k0, v0⟩ := kv
    simp only [List.map_cons, List.mem_cons] at hk
    push_neg at hk
    obtain ⟨hk0, hkt⟩ := hk
    rw [List.foldl_cons, ih _ k hkt]
    unfold restoreStep
    cases List.lookup (strLower k0) san with
    | none => rfl
    | some v =>
      by_cases hv : v ≠ ""
      · simp only [if_pos hv]
        exact lookup_hset_ne acc k0 v k hk0
      · simp only [if_neg hv]

theorem restore_foldl_mem (san : List (String × String)) :
    ∀ (hs : List (String × String)) (acc : List (String × String)) (k v : String),
      (hs.map Prod.fst).Nodup → k ∈ hs.map Prod.fst →
      List.lookup (strLower k) san = some v → v ≠ "" →
      List.lookup k (hs.foldl (restoreStep san) acc) = some v := by
  intro hs
  induction hs with
  | nil => intro acc k v _ hk; simp at hk
  | cons kv t ih =>
    intro acc k v hnd hk hsan hv
    obtain ⟨k0, v0⟩ := kv
    simp only [List.map_cons, List.nodup_cons] at hnd
    obtain ⟨hk0t, hndt⟩ := hnd
    simp only [List.map_cons, List.mem_cons] at hk
    rcases hk with rfl | hkt
    · rw [List.foldl_cons]
      rw [restore_foldl_not_mem san t _ k hk0t]
      unfold restoreStep
      simp only [hsan, if_pos hv]
      exact lookup_hset_self acc k v
    · rw [List.foldl_cons]
      exact ih _ k v hndt hkt hsan hv

/-! ## Claim theorems -/

/-- C10: for every configuration object passed to the constructor,
including one that explicitly sets `validateSpec` to `false`, the
constructed validator's `validateSpec` setting equals `true` — the
option expression `params.validateSpec || true` can never yield
`false`. -/
theorem c10_validate_spec_forced_true : ∀ p : Params, (mkConfig p).validateSpec = true := by
  intro p
  show jsOrBool p.validateSpec true = true
  unfold jsOrBool
  cases p.validateSpec with
  | none => rfl
  | some b => cases b <;> rfl

/-- C5: evaluation of the role resolution of line 134 at an event whose
claims lack the configured role key.  The code falls back to the value
of the claim NAMED by the default role name (usually absent, giving no
role), not to the default role name itself, contradicting the claim and
the code's own comment; `resolveRoleClaimed` shows what the claim
prescribes at the same input. -/
theorem c5_role_fallback_eval :
    resolveRole [] "role" "default" = none ∧
    resolveRole [("default", "role-from-claim")] "role" "default" = some "role-from-claim" ∧
    resolveRoleClaimed [] "role" "default" = some "default" :=
  ⟨rfl, by decide, rfl⟩

/-- C9: the installed handler writes the per-invocation state onto the
long-lived instance: starting from a fresh instance (no stored event, an
empty config), one invocation leaves `this.event` set to the processed
event and — when a validation flag makes resolution run — `this.config`
set to the resolved operation.  This falsifies the claim that every
field of the instance is left unchanged. -/
theorem c9_instance_mutation :
    instFresh.event = none ∧ instFresh.config = none ∧
    (installRun cfg0 orc0 hOk instFresh evPet).2.1.event = some evPet ∧
    (installRun cfgReq orc0 hOk instFresh evPet).2.1.config = some op1 :=
  ⟨rfl, rfl, rfl, by decide⟩

/-- C2 (counterexample): with both validation flags disabled, an
invocation whose path matches no template does NOT fail with
`PathNotFound` — no resolution happens at all, the handler is invoked,
and the caller receives the handler's 200 envelope. -/
theorem c2_resolution_counterexample :
    cfg0.validateRequests = false ∧ cfg0.validateResponses = false ∧
    resolveRoute cfg0.apiSpec evMiss.path (strLower evMiss.httpMethod) = none ∧
    (installRun cfg0 orc0 hOk instFresh evMiss).2.2 = true ∧
    (installRun cfg0 orc0 hOk instFresh evMiss).1.statusCode = 200 :=
  ⟨rfl, rfl, by decide, rfl, rfl⟩

/-- C3 (counterexample): the code's compiled pattern for the template
`/a/\x7bx\x7d` accepts the path `/a/_` — the underscore is admitted by the
source's `A-z` range — and resolution therefore selects the template,
while the pattern the claim describes (alphanumerics, hyphen,
whitespace, `+`, `%20` only) rejects that path. -/
theorem c3_class_counterexample :
    templateTest "/a/\x7bx\x7d" "/a/_" = true ∧
    claimedTemplateTest "/a/\x7bx\x7d" "/a/_" = false ∧
    resolveRoute [("/a/\x7bx\x7d", [("get", op1)])] "/a/_" "get" = some op1 :=
  ⟨by decide, by decide, by decide⟩

/-- C3 (amended): fallback resolution tries the templates in declaration
order of the spec's route table; the first template whose compiled
pattern (built from the code's `[a-zA-z0-9-\s\+]` class, i.e.
`classChar`, alternated with the literal `%20`, anchored at the end of
the path) matches the path AND which declares the requested verb is
selected, and its operation for the verb is returned; when no template
qualifies, resolution finds nothing. -/
theorem c3_fallback_first_match (spec : SpecDoc) (path verb : String) :
    (∀ kv, List.find? (fallbackPred path verb) spec = some kv →
      fallbackResolve spec path verb = List.lookup verb kv.2 ∧
      fallbackPred path verb kv = true ∧
      ∃ pre post, spec = pre ++ kv :: post ∧
        ∀ kv' ∈ pre, fallbackPred path verb kv' = false) ∧
    (List.find? (fallbackPred path verb) spec = none →
      fallbackResolve spec path verb = none ∧
      ∀ kv ∈ spec, fallbackPred path verb kv = false) := by
  constructor
  · intro kv h
    obtain ⟨hp, pre, post, hsplit, hpre⟩ := find_first_split _ spec kv h
    refine ⟨?_, hp, pre, post, hsplit, hpre⟩
    unfold fallbackResolve
    rw [h]
  · intro h
    constructor
    · unfold fallbackResolve
      rw [h]
    · intro kv hkv
      simpa using List.find?_eq_none.mp h kv hkv

/-- Witness for C3 (amended): on `specOverlap`, whose first template's
pattern matches `/p/z` for the wrong verb, fallback resolution for `get`
selects the second template. -/
theorem c3_fallback_first_match_witness :
    fallbackResolve specOverlap "/p/z" "get" = some op2 ∧
    fallbackPred "/p/z" "get" ("/p/\x7bb\x7d", [("get", op2)]) = true ∧
    fallbackPred "/p/z" "get" ("/p/\x7ba\x7d", [("post", op1)]) = false := by
  have h := (c3_fallback_first_match specOverlap "/p/z" "get").1
    ("/p/\x7bb\x7d", [("get", op2)]) (by decide)
  exact ⟨h.1.trans (by decide), h.2.1, by decide⟩

/-- C6: for every handler outcome, a status below 300 runs exactly the
configured success transformer, or — absent one — exactly the default
envelope construction (which keeps the status code); a status of 300 or
above runs exactly the configured error transformer, or — absent one —
raises a fault carrying the handler's message and declared status
code. -/
theorem c6_response_branching (cfg : Config) (resp : Json) (sc : Int) (msg : String) :
    (sc < 300 → ∀ f, cfg.responseSuccessTransformer = some f →
      responseStage cfg resp sc msg = .ok (f resp sc)) ∧
    (sc < 300 → cfg.responseSuccessTransformer = none →
      responseStage cfg resp sc msg = .ok (constructDefaultResponse resp sc)) ∧
    (¬ sc < 300 → ∀ g, cfg.responseErrorTransformer = some g →
      responseStage cfg resp sc msg = .ok (g resp sc msg)) ∧
    (¬ sc < 300 → cfg.responseErrorTransformer = none →
      responseStage cfg resp sc msg = .error ⟨msg, some sc⟩) := by
  unfold responseStage
  refine ⟨?_, ?_, ?_, ?_⟩
  · intro hlt f hf
    rw [if_pos hlt, hf]
  · intro hlt hf
    rw [if_pos hlt, hf]
  · intro hge g hg
    rw [if_neg hge, hg]
  · intro hge hg
    rw [if_neg hge, hg]

/-- Witness for C6: the four branches at status 200 and 404, with and
without configured transformers. -/
theorem c6_response_branching_witness :
    responseStage cfgSucc (Json.num 7) 200 "" = .ok ⟨some (Json.num 7), some 200⟩ ∧
    responseStage cfg0 (Json.num 7) 200 "" = .ok (constructDefaultResponse (Json.num 7) 200) ∧
    responseStage cfgErr (Json.num 7) 404 "m" =
      .ok ⟨some (Json.arr [Json.num 7, Json.str "m"]), some 404⟩ ∧
    responseStage cfg0 (Json.num 7) 404 "m" = .error ⟨"m", some 404⟩ := by
  refine ⟨?_, ?_, ?_, ?_⟩
  · exact (c6_response_branching cfgSucc (Json.num 7) 200 "").1 (by decide) _ rfl
  · exact (c6_response_branching cfg0 (Json.num 7) 200 "").2.1 (by decide) rfl
  · exact (c6_response_branching cfgErr (Json.num 7) 404 "m").2.2.1 (by decide) _ rfl
  · exact (c6_response_branching cfg0 (Json.num 7) 404 "m").2.2.2 (by decide) rfl

/-- C1 (counterexample): a handler-thrown fault carrying the present —
but falsy — status code `0` is converted by the catch block's
`error.statusCode || 500` into a 500 envelope, whereas the claim
prescribes "the fault's statusCode if present", i.e. 0. -/
theorem c1_fault_boundary_counterexample :
    runTry cfg0 orc0 hZero instFresh evPet =
      ⟨.error ⟨"boom", some 0⟩, ⟨none, some evPet⟩, true⟩ ∧
    (installRun cfg0 orc0 hZero instFresh evPet).1.statusCode = 500 ∧
    (installRun cfg0 orc0 hZero instFresh evPet).1.statusCode ≠
      ((⟨"boom", some 0⟩ : Fault).statusCode).getD 500 :=
  ⟨rfl, rfl, by decide⟩

/-- C1 (amended): every invocation of the installed middleware is total
— the whole `try` block's result passes through the single top-level
catch exactly once: a successful run is returned unchanged, and any
fault `e` raised anywhere in the pipeline is converted into the envelope
whose body serializes `⟨message⟩` and whose status is the fault's
`statusCode` if present and non-zero, else 500 (JavaScript's `||` also
sends a present status `0` to 500).  No fault escapes: `installRun`
always delivers an `Envelope`. -/
theorem c1_fault_boundary (cfg : Config) (orc : Oracles) (handler : Handler)
    (inst0 : Inst) (event0 : Event) :
    (∀ env i v, runTry cfg orc handler inst0 event0 = ⟨.ok env, i, v⟩ →
      installRun cfg orc handler inst0 event0 = (env, i, v)) ∧
    (∀ e i v, runTry cfg orc handler inst0 event0 = ⟨.error e, i, v⟩ →
      installRun cfg orc handler inst0 event0 =
        (⟨Json.str (messageBody e.message),
          match e.statusCode with
          | some c => if c = 0 then 500 else c
          | none => 500⟩, i, v)) := by
  constructor
  · intro env i v h
    simp only [installRun, h]
  · intro e i v h
    simp only [installRun, h]
    rfl

/-- Witness for C1 (amended): a resolution fault (status 400) is
converted into the serialized message envelope with status 400. -/
theorem c1_fault_boundary_witness :
    installRun cfgReq orc0 hOk instFresh evMiss =
      (⟨Json.str (messageBody (pathNotFoundMsg "/nope" "get")), 400⟩,
       ⟨none, some evMiss⟩, false) :=
  (c1_fault_boundary cfgReq orc0 hOk instFresh evMiss).2
    ⟨pathNotFoundMsg "/nope" "get", some 400⟩ ⟨none, some evMiss⟩ false rfl

/-- C2 (amended): for every invocation with request or response
validation enabled whose path (with the lower-cased verb) resolves to no
operation, the invocation fails with the `ValidationError` of line 68:
the caller receives the envelope with status 400 and the message naming
both the path and the verb, the handler is never invoked, and
`this.config` is left untouched. -/
theorem c2_path_not_found (cfg : Config) (orc : Oracles) (handler : Handler)
    (inst0 : Inst) (event0 : Event)
    (hflag : (cfg.validateRequests || cfg.validateResponses) = true)
    (hmiss : resolveRoute cfg.apiSpec event0.path (strLower event0.httpMethod) = none) :
    installRun cfg orc handler inst0 event0 =
      (⟨Json.str (messageBody (pathNotFoundMsg event0.path (strLower event0.httpMethod))), 400⟩,
       ⟨inst0.config, some (parseEventBody orc event0)⟩, false) := by
  simp only [installRun, runTry, preHandler, parseEventBody_path, parseEventBody_httpMethod,
    hflag, if_true, hmiss]
  unfold catchEnvelope jsIntOr
  norm_num

/-- Witness for C2 (amended): with response validation on, `GET /nope`
against the one-route spec yields the 400 path-not-found envelope and
the handler is not invoked. -/
theorem c2_path_not_found_witness :
    installRun cfgResp orc0 hOk instFresh evMiss =
      (⟨Json.str (messageBody (pathNotFoundMsg evMiss.path (strLower evMiss.httpMethod))), 400⟩,
       ⟨instFresh.config, some (parseEventBody orc0 evMiss)⟩, false) :=
  c2_path_not_found cfgResp orc0 hOk instFresh evMiss (by decide) (by decide)

/-- C4: for every invocation with request validation enabled whose
composite payload the request validator rejects, the invocation fails
with the validator's message as a 400 envelope (the spec-modelled
`RequestValidationError` status), the wrapped handler is never invoked,
and the event the instance holds is the unmodified pre-validation event
(the failed validation assigns nothing back onto it). -/
theorem c4_request_validation_failure (cfg : Config) (orc : Oracles) (handler : Handler)
    (inst0 : Inst) (event0 : Event) (op : OpSchema) (m : String)
    (hreq : cfg.validateRequests = true)
    (hres : resolveRoute cfg.apiSpec event0.path (strLower event0.httpMethod) = some op)
    (hval : applyRequestValidation cfg orc (some op) (parseEventBody orc event0) = .error m) :
    installRun cfg orc handler inst0 event0 =
      (⟨Json.str (messageBody m), 400⟩, ⟨some op, some (parseEventBody orc event0)⟩, false) := by
  have hflag : (cfg.validateRequests || cfg.validateResponses) = true := by
    rw [hreq]
    rfl
  simp only [installRun, runTry, preHandler, parseEventBody_path, parseEventBody_httpMethod,
    hflag, if_true, hres, afterResolve, hreq, hval]
  unfold catchEnvelope jsIntOr
  norm_num

/-- Witness for C4: the rejecting validator turns `POST /pet` into the
400 envelope carrying its message, without invoking the handler. -/
theorem c4_request_validation_failure_witness :
    installRun cfgReq orcRej hOk instFresh evPet =
      (⟨Json.str (messageBody "request invalid"), 400⟩,
       ⟨some op1, some (parseEventBody orcRej evPet)⟩, false) :=
  c4_request_validation_failure cfgReq orcRej hOk instFresh evPet op1 "request invalid"
    rfl (by decide) rfl

/-- C7: whenever the handler/transform stage produces a result lacking
the `body` field or the `statusCode` field, the invocation raises the
envelope-contract fault, which the top boundary converts into an error
envelope with status 500 (the fault carries no status of its own); the
missing field is never defaulted. -/
theorem c7_envelope_contract (cfg : Config) (orc : Oracles) (handler : Handler)
    (inst0 : Inst) (event0 : Event) (ev : Event) (c1 : Option OpSchema) (i : Inst)
    (resp : Json) (sc : Int) (msg? : Option String) (r1 : JsResp)
    (hpre : preHandler cfg orc inst0 event0 = (.ok (ev, c1), i))
    (hh : handler ev = .ok (resp, sc, msg?))
    (hstage : responseStage cfg resp sc (msg?.getD "") = .ok r1)
    (hmiss : r1.body = none ∨ r1.statusCode = none) :
    installRun cfg orc handler inst0 event0 =
      (⟨Json.str (messageBody "Response must contain a body and statusCode"), 500⟩, i, true) := by
  have hpost : postHandler cfg orc c1 ev (handler ev) = .error envContractFault := by
    simp only [postHandler, hh, hstage]
    obtain ⟨b?, s?⟩ := r1
    rcases hmiss with hb | hs
    · have hb' : b? = none := hb
      subst hb'
      cases s? <;> rfl
    · have hs' : s? = none := hs
      subst hs'
      cases b? <;> rfl
  simp only [installRun, runTry, hpre, hpost]
  rfl

/-- Witness for C7: a success transformer that drops `body` makes the
invocation return the 500 contract-violation envelope. -/
theorem c7_envelope_contract_witness :
    installRun cfgNoBody orc0 hOk instFresh evPet =
      (⟨Json.str (messageBody "Response must contain a body and statusCode"), 500⟩,
       ⟨none, some evPet⟩, true) :=
  c7_envelope_contract cfgNoBody orc0 hOk instFresh evPet evPet none ⟨none, some evPet⟩
    (Json.obj [("id", Json.num 1)]) 200 none ⟨none, some 200⟩ rfl rfl rfl (Or.inl rfl)

/-- C8 (counterexample): a submitted header `X-A` whose value survives
validation as the empty string is NOT returned under its original
casing — line 192's truthiness guard (`if (request.headers[lower])`)
skips falsy values, so the sanitized event holds the entry only under
the lower-cased name `x-a`. -/
theorem c8_header_casing_counterexample :
    applyRequestValidation cfgReq orc0 (some op1)
        { evPet with headers := some [("X-A", "")] } =
      .ok { evPet with
        body := Json.obj []
        queryStringParams := some []
        headers := some [("x-a", "")]
        pathParameters := some [] } ∧
    List.lookup "X-A" [("x-a", "")] = none :=
  ⟨rfl, by decide⟩

/-- C8 (amended): (a) request validation is header-case-insensitive —
two events that differ only in the casing of their header names (same
lower-cased header table, in order) produce the same validation
verdict, the same error message on failure, and the same sanitized
body, query and path parameters on success; (b) the sanitized headers
preserve the casing the caller submitted for every header whose
sanitized value is truthy — for every original header key (keys of a JS
object being distinct) whose lower-cased entry survives validation with
a non-empty value, the restored table yields that sanitized value at
the original-cased key (line 192's truthiness guard skips falsy
values, which stay only under their lower-cased names). -/
theorem c8_header_casing :
    (∀ (cfg : Config) (orc : Oracles) (c1 : Option OpSchema) (ev : Event)
       (H1 H2 : List (String × String)),
      H1.map (fun kv => (strLower kv.1, kv.2)) = H2.map (fun kv => (strLower kv.1, kv.2)) →
      ((∀ m, applyRequestValidation cfg orc c1 { ev with headers := some H1 } = .error m ↔
             applyRequestValidation cfg orc c1 { ev with headers := some H2 } = .error m) ∧
       (∀ e1, applyRequestValidation cfg orc c1 { ev with headers := some H1 } = .ok e1 →
          ∃ e2, applyRequestValidation cfg orc c1 { ev with headers := some H2 } = .ok e2 ∧
            e1.body = e2.body ∧ e1.queryStringParams = e2.queryStringParams ∧
            e1.pathParameters = e2.pathParameters))) ∧
    (∀ (hs san : List (String × String)) (k v : String),
      (hs.map Prod.fst).Nodup → k ∈ hs.map Prod.fst →
      List.lookup (strLower k) san = some v → v ≠ "" →
      List.lookup k (restoreHeaders hs san) = some v) := by
  constructor
  · intro cfg orc c1 ev H1 H2 hmap
    have hl : loweredHeaders H1 = loweredHeaders H2 := by
      unfold loweredHeaders
      rw [hmap]
    simp only [applyRequestValidation, Option.getD_some]
    rw [hl]
    rcases horc : orc.reqValidate cfg.apiSpec cfg.removeAdditionalRequestProps c1 ev.path
        (jsOrJson ev.body (Json.obj [])) (ev.queryStringParameters.getD [])
        (loweredHeaders H2) (ev.pathParameters.getD []) with m0 | san
    · constructor
      · intro m
        exact Iff.rfl
      · intro e1 h1
        exact absurd h1 (by simp)
    · constructor
      · intro m
        constructor
        · intro h
          exact absurd h (by simp)
        · intro h
          exact absurd h (by simp)
      · intro e1 h1
        refine ⟨_, rfl, ?_⟩
        cases h1
        exact ⟨rfl, rfl, rfl⟩
  · intro hs san k v hnd hk hsan hv
    unfold restoreHeaders
    exact restore_foldl_mem san hs san k v hnd hk hsan hv

/-- Witness for C8: the `X-Role: admin` event validates exactly as the
`x-role: admin` event, and the restored sanitized headers carry the
sanitized value under the original `X-Role` casing. -/
theorem c8_header_casing_witness :
    (applyRequestValidation cfgReq orc0 (some op1)
        { evPet with headers := some [("X-Role", "admin")] } = .error "nope" ↔
     applyRequestValidation cfgReq orc0 (some op1)
        { evPet with headers := some [("x-role", "admin")] } = .error "nope") ∧
    List.lookup "X-Role" (restoreHeaders [("X-Role", "admin")] [("x-role", "admin")]) =
      some "admin" :=
  ⟨((c8_header_casing.1 cfgReq orc0 (some op1) evPet [("X-Role", "admin")]
      [("x-role", "admin")] (by decide)).1 "nope"),
   c8_header_casing.2 [("X-Role", "admin")] [("x-role", "admin")] "X-Role" "admin"
     (by decide) (by decide) (by decide) (by decide)⟩

end AGV

